import Mathlib

/-!
Shallow embedding of MyPaint's `lib/document.py` (the document model:
frame/resolution metadata, the undo/redo command orchestration, bounding-box
queries, flood-fill bound selection, and the OpenRaster metadata restore).

The repository ships only `lib/document.py`; the collaborator modules it
imports (`command`, `helpers`, `layer`, `tiledsurface`) are absent, so their
small surface used here is modelled from the spec (each such definition's
doc comment starts with `Modelled from the spec:`).  Everything else is a
direct transcription of the Python source.

Python floats that none of the verified properties inspect numerically
(opacity, tolerance, colour components, `unsaved_painting_time`) are
modelled as rationals; integer coordinates/sizes as `Int`.
-/

namespace MyPaintDoc

/-- Modelled from the spec: `helpers.Rect`, the rectangle `(x, y, w, h)` used
for bounding boxes and damage regions (spec section 3, "DamageRegion").
`(0,0,0,0)` is both the initial/empty rectangle and the reserved full-redraw
sentinel. -/
structure Rect where
  x : Int
  y : Int
  w : Int
  h : Int
  deriving DecidableEq, Repr

/-- Modelled from the spec: a rectangle with zero width or height carries no
area.  `Document.flood_fill` and `Document.load_ora` in the source branch on
`bbox.empty()`, and `Document.get_bbox` / `get_full_redraw_bbox` start their
accumulation from the empty `helpers.Rect()`. -/
def Rect.isEmpty (r : Rect) : Bool :=
  r.w == 0 || r.h == 0

/-- Modelled from the spec: rectangle union ("overlapping/adjacent regions
merge into their bounding rectangle", spec section 3).  An empty argument is
ignored and an empty receiver is replaced by the argument, so the empty
rectangle is the identity of the union.  The `(0,0,0,0)` full-redraw sentinel
is *not* treated specially here: the source's `Document.get_full_redraw_bbox`
detects the sentinel itself before calling this (it would be dead code if the
union already absorbed the sentinel), and `Document.get_bbox` starts its fold
from `helpers.Rect()` = `(0,0,0,0)`, which must act as the identity for the
data bbox to come out right.  The sentinel-absorption sentence of the spec
describes the intended damage-region coalescing, not this primitive. -/
def Rect.expandToIncludeRect (r other : Rect) : Rect :=
  if other.isEmpty then r
  else if r.isEmpty then other
  else
    let x0 := min r.x other.x
    let y0 := min r.y other.y
    let x1 := max (r.x + r.w) (other.x + other.w)
    let y1 := max (r.y + r.h) (other.y + other.h)
    ⟨x0, y0, x1 - x0, y1 - y0⟩

/-- Modelled from the spec: growing a rectangle to contain a point; an empty
receiver becomes the one-pixel rectangle at the point.  Used by
`Document.flood_fill`'s non-empty, frame-disabled branch. -/
def Rect.expandToIncludePoint (r : Rect) (px py : Int) : Rect :=
  if r.isEmpty then ⟨px, py, 1, 1⟩
  else
    let x0 := min r.x px
    let y0 := min r.y py
    let x1 := max (r.x + r.w) (px + 1)
    let y1 := max (r.y + r.h) (py + 1)
    ⟨x0, y0, x1 - x0, y1 - y0⟩

/-- Modelled from the spec: `tiledsurface.N`, the fixed tile size ("Tile:
fixed-size square block of pixels", glossary).  The verified properties do
not depend on the concrete value. -/
def N : Int := 64

/-- Modelled from the spec: `layer.PASS_THROUGH_MODE`, the group mode for
which `Document.set_current_layer_opacity` refuses to act.  The concrete
value is irrelevant; only the comparison in the source matters. -/
def PASS_THROUGH_MODE : Int := -1

/-- Modelled from the spec: the slice of a `lib.layer` node that
`lib/document.py` reads — an identity (Python object identity, needed by the
coalescing checks `cmd.layer is current`), the blend mode, the data bounding
box, the full-redraw bounding box, and fillability. -/
structure Layer where
  id : Nat
  mode : Int
  bbox : Rect
  full_redraw_bbox : Rect
  fillable : Bool
  deriving DecidableEq, Repr

/-- Modelled from the spec: the payloads of the `command.Action` variants
that `lib/document.py` constructs or inspects for the verified properties.
Variants not inspected by any property are collapsed into `other`. -/
inductive CmdPayload where
  | setLayerOpacity (layerId : Nat) (opacity : ℚ)
  | setLayerMode (layerId : Nat) (mode : Int)
  | setLayerVisibility (layerId : Nat) (visible : Bool)
  | setLayerLocked (layerId : Nat) (locked : Bool)
  | floodFill (x y : Int) (color : ℚ × ℚ × ℚ) (bbox : Rect) (tolerance : ℚ)
      (sampleMerged makeNewLayer : Bool)
  | other (tag : Nat)
  deriving DecidableEq, Repr

/-- Modelled from the spec: a `command.Action` — a payload plus the
`automatic_undo` flag that makes a history entry transparent to undo/redo
traversal (spec section 3, "Command"). -/
structure Command where
  payload : CmdPayload
  automatic_undo : Bool
  deriving DecidableEq, Repr

/-- Modelled from the spec: `command.CommandStack`, the two-stack history
(spec sections 3 and 4.1).  Both lists keep the most recent command at the
head. -/
structure CommandStack where
  undo_stack : List Command
  redo_stack : List Command
  deriving DecidableEq, Repr

namespace CommandStack

/-- Modelled from the spec: `do(cmd)` applies the command, pushes it onto the
undo stack and clears the redo stack (spec section 4.1). -/
def doCmd (cmd : Command) (s : CommandStack) : CommandStack :=
  ⟨cmd :: s.undo_stack, []⟩

/-- Modelled from the spec: the primitive single-step `undo()` — pop the top
of the undo stack if any, revert it, push it onto the redo stack, and return
it; `None` on an empty stack (spec section 4.1).  The automatic-skip loop of
the spec lives in `Document.undo` in the source, so the stack primitive pops
exactly one command. -/
def undo (s : CommandStack) : Option Command × CommandStack :=
  match s.undo_stack with
  | [] => (none, s)
  | c :: rest => (some c, ⟨rest, c :: s.redo_stack⟩)

/-- Modelled from the spec: the primitive single-step `redo()`, symmetric to
`undo` (spec section 4.1). -/
def redo (s : CommandStack) : Option Command × CommandStack :=
  match s.redo_stack with
  | [] => (none, s)
  | c :: rest => (some c, ⟨c :: s.undo_stack, rest⟩)

/-- Modelled from the spec: `update_last_command(**fields)` mutates the most
recent undo-stack entry in place and does not re-push it; a no-op on an
empty stack (spec section 4.1).  The field update applied to the command is
passed as a function. -/
def update_last_command (f : Command → Command) (s : CommandStack) :
    CommandStack :=
  match s.undo_stack with
  | [] => s
  | c :: rest => ⟨f c :: rest, s.redo_stack⟩

/-- Modelled from the spec: `get_last_command()` peeks at the most recent
undo-stack entry without mutation (spec section 4.1). -/
def get_last_command (s : CommandStack) : Option Command :=
  s.undo_stack.head?

/-- Modelled from the spec: `clear()` drops both stacks without reverting
(spec section 4.1). -/
def clear (_s : CommandStack) : CommandStack :=
  ⟨[], []⟩

end CommandStack

/-- The document state mutated by `lib/document.py`: the flattened layer
traversal (`layer_stack.deepiter()` order), the current layer (`none` when
the root stack itself is current), the command stack, the frame rectangle
and flag, the optional resolutions, and the unsaved-painting-time counter.
Pixel data and the tree shape beyond the traversal are external
collaborators and are not modelled. -/
structure DocState where
  layers : List Layer
  current : Option Layer
  stack : CommandStack
  frame : Rect
  frame_enabled : Bool
  xres : Option Int
  yres : Option Int
  unsaved_painting_time : ℚ
  deriving DecidableEq, Repr

namespace Document

/-- `Document.get_resolution` (document.py lines 196-212): when both
resolution fields are truthy (set and non-zero, Python `if self._xres and
self._yres`), `max(1, max(self._xres, self._yres))`; otherwise the default
72. -/
def get_resolution (d : DocState) : Int :=
  match d.xres, d.yres with
  | some xr, some yr =>
      if xr ≠ 0 ∧ yr ≠ 0 then max 1 (max xr yr) else 72
  | _, _ => 72

/-- `Document.set_resolution` (document.py lines 214-232): a non-`None`
argument is truncated to an integer and clamped below by 1, then stored into
both fields; `None` is stored into both fields as-is. -/
def set_resolution (res : Option Int) (d : DocState) : DocState :=
  match res with
  | some r => { d with xres := some (max 1 r), yres := some (max 1 r) }
  | none => { d with xres := none, yres := none }

/-- `Document.get_bbox` (document.py lines 521-534): the union of the data
bounding boxes of all layers in `deepiter()` order, starting from the empty
rectangle, disregarding the frame. -/
def get_bbox (d : DocState) : Rect :=
  d.layers.foldl (fun res l => res.expandToIncludeRect l.bbox) ⟨0, 0, 0, 0⟩

/-- `Document.get_full_redraw_bbox` (document.py lines 536-549): folds over
all layers' full-redraw bounding boxes; a `(0,0,0,0)` box ("infinite") is
assigned to the accumulator, any other box is unioned in. -/
def get_full_redraw_bbox (d : DocState) : Rect :=
  d.layers.foldl
    (fun res l =>
      let bbox := l.full_redraw_bbox
      if bbox.w == 0 && bbox.h == 0 then bbox
      else res.expandToIncludeRect bbox)
    ⟨0, 0, 0, 0⟩

/-- `Document.get_effective_bbox` (document.py lines 551-558): the frame if
framing is enabled, else the data bbox. -/
def get_effective_bbox (d : DocState) : Rect :=
  if d.frame_enabled then d.frame else get_bbox d

/-- `Document.do` (document.py lines 507-509): flush pending updates (an
event with no observers in this model) and push the command via
`CommandStack.do`. -/
def doCmd (cmd : Command) (d : DocState) : DocState :=
  { d with stack := d.stack.doCmd cmd }

/-- The `while 1` loop shared by `Document.undo` (document.py lines 493-498):
each iteration performs one `CommandStack.undo` (pop from the undo list,
push onto the redo list) and returns as soon as the popped command is absent
or non-automatic. -/
def undoLoop : List Command → List Command →
    Option Command × List Command × List Command
  | [], redoL => (none, [], redoL)
  | c :: rest, redoL =>
      if c.automatic_undo then undoLoop rest (c :: redoL)
      else (some c, rest, c :: redoL)

/-- The symmetric loop of `Document.redo` (document.py lines 500-505). -/
def redoLoop : List Command → List Command →
    Option Command × List Command × List Command
  | undoL, [] => (none, undoL, [])
  | undoL, c :: rest =>
      if c.automatic_undo then redoLoop (c :: undoL) rest
      else (some c, c :: undoL, rest)

/-- `Document.undo` (document.py lines 493-498): pops (and reverts) commands
until the popped command is missing or non-automatic, returning that
command. -/
def undo (d : DocState) : Option Command × DocState :=
  let r := undoLoop d.stack.undo_stack d.stack.redo_stack
  (r.1, { d with stack := ⟨r.2.1, r.2.2⟩ })

/-- `Document.redo` (document.py lines 500-505): symmetric to `undo`,
re-applying from the redo stack. -/
def redo (d : DocState) : Option Command × DocState :=
  let r := redoLoop d.stack.undo_stack d.stack.redo_stack
  (r.1, { d with stack := ⟨r.2.1, r.2.2⟩ })

/-- `Document.update_last_command` (document.py lines 511-513): flush, then
delegate to `CommandStack.update_last_command`. -/
def update_last_command (f : Command → Command) (d : DocState) : DocState :=
  { d with stack := d.stack.update_last_command f }

/-- `Document.get_last_command` (document.py lines 515-517): flush, then
peek. -/
def get_last_command (d : DocState) : Option Command :=
  d.stack.get_last_command

/-- Does a command coalesce with a `SetLayerOpacity` on the layer with this
identity?  Embeds the source's `isinstance(cmd, command.SetLayerOpacity) and
cmd.layer is current` check (document.py line 682). -/
def opacityTargets (c : Command) (lid : Nat) : Bool :=
  match c.payload with
  | .setLayerOpacity l _ => l == lid
  | _ => false

/-- Modelled from the spec: the field update `update(opacity=...)` performed
on a `SetLayerOpacity` command by `update_last_command` — the stored opacity
is replaced, the target layer and the flag are kept (spec section 4.1: the
command re-derives its effect from the updated absolute value). -/
def withOpacity (opacity : ℚ) (c : Command) : Command :=
  match c.payload with
  | .setLayerOpacity l _ => ⟨.setLayerOpacity l opacity, c.automatic_undo⟩
  | p => ⟨p, c.automatic_undo⟩

/-- `Document.set_current_layer_opacity` (document.py lines 670-688): no-op
when the root stack is current or the current layer is in pass-through mode;
otherwise update the last command in place when it is a `SetLayerOpacity` on
the same layer object, else push a fresh `SetLayerOpacity`. -/
def set_current_layer_opacity (opacity : ℚ) (d : DocState) : DocState :=
  match d.current with
  | none => d
  | some cur =>
      if cur.mode = PASS_THROUGH_MODE then d
      else
        match get_last_command d with
        | some c =>
            if opacityTargets c cur.id then
              update_last_command (withOpacity opacity) d
            else doCmd ⟨.setLayerOpacity cur.id opacity, false⟩ d
        | none => doCmd ⟨.setLayerOpacity cur.id opacity, false⟩ d

/-- `Document.set_current_layer_mode` (document.py lines 690-700): no-op when
the root stack is current; otherwise always push a fresh `SetLayerMode`
command (no inspection of the last command, in contrast with the opacity,
visibility and locked setters). -/
def set_current_layer_mode (mode : Int) (d : DocState) : DocState :=
  match d.current with
  | none => d
  | some cur => doCmd ⟨.setLayerMode cur.id mode, false⟩ d

/-- `Document.flood_fill` (document.py lines 411-449), restricted to the
bound-selection and command-push logic: the fill rectangle is the effective
bbox; if that is empty, the single tile containing the seed point
(`N*int(x//N)`, Python floor division, hence `Int.fdiv`); if the frame is
disabled, the effective bbox grown to include the seed point.  A
non-fillable (or absent/root) current layer forces `make_new_layer`. -/
def flood_fill (x y : Int) (color : ℚ × ℚ × ℚ) (tolerance : ℚ)
    (sample_merged make_new_layer : Bool) (d : DocState) : DocState :=
  let bbox := get_effective_bbox d
  let fillable := match d.current with
    | some l => l.fillable
    | none => false
  let make_new_layer := if fillable then make_new_layer else true
  let bbox :=
    if bbox.isEmpty then
      { x := N * Int.fdiv x N, y := N * Int.fdiv y N, w := N, h := N : Rect }
    else if !d.frame_enabled then bbox.expandToIncludePoint x y
    else bbox
  doCmd ⟨.floodFill x y color bbox tolerance sample_merged make_new_layer,
         false⟩ d

/-- `Document.update_frame` (document.py lines 244-262) for the
non-user-initiated path (the only one exercised by the verified claims):
each given component replaces the corresponding frame field; the frame is
rewritten only when the result differs. -/
def update_frame (x y width height : Option Int) (d : DocState) : DocState :=
  let nf : Rect := ⟨x.getD d.frame.x, y.getD d.frame.y,
                    width.getD d.frame.w, height.getD d.frame.h⟩
  if nf = d.frame then d else { d with frame := nf }

/-- `Document.set_frame_enabled` (document.py lines 274-282) for the
non-user-initiated path: early return when unchanged, else set the flag. -/
def set_frame_enabled (enabled : Bool) (d : DocState) : DocState :=
  if d.frame_enabled = enabled then d
  else { d with frame_enabled := enabled }

/-- The metadata-restoring tail of `Document.load_ora` (document.py lines
928-959), taking the already-parsed integer attributes of the `<image>`
element (`none` = attribute absent, XML parsing itself is out of scope) and
a state whose `layers` are the reconstructed layer stack: clamp the
attributes below by 0 with absent defaulting to 0; restore both resolution
fields iff both clamped values are truthy, else reset both to `None`; set
the frame to the declared size at the origin; enable framing iff the
declared rectangle differs from the data bbox and neither is empty. -/
def load_ora_metadata (w_attr h_attr xres_attr yres_attr : Option Int)
    (d : DocState) : DocState :=
  let image_width := max 0 (w_attr.getD 0)
  let image_height := max 0 (h_attr.getD 0)
  let image_xres := max 0 (xres_attr.getD 0)
  let image_yres := max 0 (yres_attr.getD 0)
  let d :=
    if image_xres ≠ 0 ∧ image_yres ≠ 0 then
      { d with xres := some image_xres, yres := some image_yres }
    else
      { d with xres := none, yres := none }
  let d := update_frame (some 0) (some 0) (some image_width)
    (some image_height) d
  let bbox_c : Rect := ⟨0, 0, image_width, image_height⟩
  let bbox := get_bbox d
  let frame_enab := !(bbox_c == bbox || bbox.isEmpty || bbox_c.isEmpty)
  set_frame_enabled frame_enab d

/-- The error taxonomy of `Document.load`/`save` (spec section 7): the
distinguishable kinds of `SaveLoadError`. -/
inductive LoadErrorKind where
  | notFound
  | permissionDenied
  | unsupportedFormat
  | ioFailure
  deriving DecidableEq, Repr

/-- Modelled from the spec: the filesystem facts `Document.load` consults
before dispatching (`os.path.isfile`, `os.access(..., os.R_OK)`): whether a
path names an existing file and whether it is readable. -/
structure FS where
  isFile : String → Bool
  readable : String → Bool

/-- The normalized extension used for loader dispatch (document.py lines
760-761): the part after the final dot, lowercased; empty when the name has
no dot. -/
def normalizedExt (filename : String) : String :=
  let parts := filename.splitOn "."
  if parts.length ≤ 1 then "" else (parts.getLast!).toLower

/-- `Document.load` (document.py lines 743-772): raise the not-found error
when the path is not an existing file, the permission error when it is
unreadable — in both cases before any loader runs — otherwise dispatch on
the normalized extension (`_unsupported` when no loader matches), run the
loader, then clear the command stack and zero `unsaved_painting_time`.  The
pair returned carries the error (if any) alongside the resulting state, so
"state unchanged" on failure is part of the result. -/
def load (fs : FS) (loaders : String → Option (DocState → DocState))
    (filename : String) (d : DocState) : Option LoadErrorKind × DocState :=
  if !fs.isFile filename then (some .notFound, d)
  else if !fs.readable filename then (some .permissionDenied, d)
  else
    match loaders (normalizedExt filename) with
    | none => (some .unsupportedFormat, d)
    | some loader =>
        let d := loader d
        (none, { d with stack := d.stack.clear, unsaved_painting_time := 0 })

end Document

/-! ## Concrete sample states used by witnesses -/

/-- A plain painting layer for concrete tests. -/
def sampleLayer : Layer := ⟨1, 0, ⟨0, 0, 0, 0⟩, ⟨0, 0, 0, 0⟩, true⟩

/-- A fresh document: one blank layer which is current, empty history, no
frame, default resolution. -/
def sampleDoc : DocState :=
  ⟨[sampleLayer], some sampleLayer, ⟨[], []⟩, ⟨0, 0, 0, 0⟩, false,
   none, none, 0⟩

/-- A history entry with `automatic_undo` set. -/
def autoCmd : Command := ⟨.other 0, true⟩

/-- A history entry with `automatic_undo` unset. -/
def plainCmd : Command := ⟨.other 1, false⟩

/-- A document whose undo history has an automatic command on top of a
non-automatic one, and symmetrically for the redo history. -/
def skipDoc : DocState :=
  { sampleDoc with stack := ⟨[autoCmd, plainCmd], [autoCmd, plainCmd]⟩ }

/-- A second plain layer, distinct (by identity) from `sampleLayer`. -/
def sampleLayer2 : Layer := ⟨2, 0, ⟨0, 0, 0, 0⟩, ⟨0, 0, 0, 0⟩, true⟩

/-- A layer whose full-redraw bounding box is the infinite `(0,0,0,0)`
sentinel. -/
def infiniteLayer : Layer := ⟨3, 0, ⟨0, 0, 0, 0⟩, ⟨0, 0, 0, 0⟩, true⟩

/-- A layer with a finite, non-empty full-redraw bounding box. -/
def finiteLayer : Layer := ⟨4, 0, ⟨0, 0, 64, 64⟩, ⟨0, 0, 64, 64⟩, true⟩

/-- A document whose traversal meets the infinite layer before the finite
one. -/
def infiniteFirstDoc : DocState := { sampleDoc with
  layers := [infiniteLayer, finiteLayer] }

/-- A document whose traversal meets the infinite layer last. -/
def infiniteLastDoc : DocState := { sampleDoc with
  layers := [finiteLayer, infiniteLayer] }

/-- A document carrying a stored 300x200 ppi resolution pair. -/
def resDoc : DocState := { sampleDoc with
  xres := some 300, yres := some 200 }

/-! ## Helper lemmas -/

/-- Characterization of the `Document.undo` loop: the returned command is
the first non-automatic entry, the remaining undo stack is everything after
it, and all popped commands land on the redo stack in reverse order. -/
lemma undoLoop_eq (undoL : List Command) : ∀ redoL,
    Document.undoLoop undoL redoL =
      (undoL.find? (fun c => !c.automatic_undo),
       (undoL.dropWhile (fun c => c.automatic_undo)).tail,
       (undoL.takeWhile (fun c => c.automatic_undo) ++
         (undoL.dropWhile (fun c => c.automatic_undo)).take 1).reverse
         ++ redoL) := by
  induction undoL with
  | nil => intro redoL; rfl
  | cons c rest ih =>
      intro redoL
      by_cases hc : c.automatic_undo = true
      · simp [Document.undoLoop, hc, ih]
      · simp [Document.undoLoop, hc]

/-- Characterization of the `Document.redo` loop, symmetric to
`undoLoop_eq`. -/
lemma redoLoop_eq (redoL : List Command) : ∀ undoL,
    Document.redoLoop undoL redoL =
      (redoL.find? (fun c => !c.automatic_undo),
       (redoL.takeWhile (fun c => c.automatic_undo) ++
         (redoL.dropWhile (fun c => c.automatic_undo)).take 1).reverse
         ++ undoL,
       (redoL.dropWhile (fun c => c.automatic_undo)).tail) := by
  induction redoL with
  | nil => intro undoL; rfl
  | cons c rest ih =>
      intro undoL
      by_cases hc : c.automatic_undo = true
      · simp [Document.redoLoop, hc, ih]
      · simp [Document.redoLoop, hc]

/-- A command found by scanning for a false `automatic_undo` flag indeed has
the flag unset. -/
lemma find?_not_automatic {l : List Command} {c : Command}
    (h : l.find? (fun c => !c.automatic_undo) = some c) :
    c.automatic_undo = false := by
  have := List.find?_some h
  simpa using this

/-- Updating the opacity of a command known to be a `SetLayerOpacity` on
layer `lid` yields exactly that command with the new opacity. -/
lemma withOpacity_of_targets {c : Command} {lid : Nat} (a : ℚ)
    (ht : Document.opacityTargets c lid = true) :
    Document.withOpacity a c = ⟨.setLayerOpacity lid a, c.automatic_undo⟩ := by
  obtain ⟨p, auto⟩ := c
  unfold Document.opacityTargets at ht
  unfold Document.withOpacity
  cases p <;> simp_all

/-- `set_current_layer_opacity` with a non-root, non-pass-through current
layer, unfolded into its three outcomes as a function of the last command:
push on empty history, in-place update when the last command coalesces,
push otherwise. -/
lemma set_opacity_cases {d : DocState} {cur : Layer} (a : ℚ)
    (h : d.current = some cur) (hm : cur.mode ≠ PASS_THROUGH_MODE) :
    Document.set_current_layer_opacity a d
      = match d.stack.undo_stack with
        | [] => Document.doCmd ⟨.setLayerOpacity cur.id a, false⟩ d
        | c :: rest =>
            if Document.opacityTargets c cur.id then
              { d with stack :=
                  ⟨Document.withOpacity a c :: rest, d.stack.redo_stack⟩ }
            else Document.doCmd ⟨.setLayerOpacity cur.id a, false⟩ d := by
  unfold Document.set_current_layer_opacity
  rw [h]
  dsimp only
  rw [if_neg hm]
  cases hu : d.stack.undo_stack with
  | nil =>
      have hg : Document.get_last_command d = none := by
        simp [Document.get_last_command, CommandStack.get_last_command, hu]
      rw [hg]
  | cons c rest =>
      have hg : Document.get_last_command d = some c := by
        simp [Document.get_last_command, CommandStack.get_last_command, hu]
      rw [hg]
      dsimp only
      by_cases ht : Document.opacityTargets c cur.id = true
      · rw [if_pos ht, if_pos ht, ← h]
        simp [Document.update_last_command,
          CommandStack.update_last_command, hu]
      · rw [if_neg ht, if_neg ht]

/-- After `set_current_layer_opacity` runs with a non-root, non-pass-through
current layer, the current layer is untouched and the top of the undo stack
is a `SetLayerOpacity` on that layer carrying the new value — whether the
call updated in place or pushed. -/
lemma set_opacity_top {d : DocState} {cur : Layer} (a : ℚ)
    (h : d.current = some cur) (hm : cur.mode ≠ PASS_THROUGH_MODE) :
    (Document.set_current_layer_opacity a d).current = some cur ∧
    ∃ auto rest, (Document.set_current_layer_opacity a d).stack.undo_stack
      = ⟨.setLayerOpacity cur.id a, auto⟩ :: rest := by
  rw [set_opacity_cases a h hm]
  cases hu : d.stack.undo_stack with
  | nil =>
      dsimp only
      exact ⟨h, false, d.stack.undo_stack,
        by simp [Document.doCmd, CommandStack.doCmd]⟩
  | cons c rest =>
      dsimp only
      by_cases ht : Document.opacityTargets c cur.id = true
      · rw [if_pos ht]
        exact ⟨h, c.automatic_undo, rest,
          by simp [withOpacity_of_targets a ht]⟩
      · rw [if_neg ht]
        exact ⟨h, false, d.stack.undo_stack,
          by simp [Document.doCmd, CommandStack.doCmd]⟩

/-- When the last command coalesces (`SetLayerOpacity` on the current
layer), `set_current_layer_opacity` updates it in place and the undo stack
keeps its length. -/
lemma set_opacity_update_length {d : DocState} {cur : Layer} {c : Command}
    (a : ℚ) (h : d.current = some cur) (hm : cur.mode ≠ PASS_THROUGH_MODE)
    (hhead : d.stack.undo_stack.head? = some c)
    (ht : Document.opacityTargets c cur.id = true) :
    (Document.set_current_layer_opacity a d).stack.undo_stack.length
      = d.stack.undo_stack.length := by
  rw [set_opacity_cases a h hm]
  cases hu : d.stack.undo_stack with
  | nil => rw [hu] at hhead; simp at hhead
  | cons c0 rest =>
      rw [hu] at hhead
      simp only [List.head?_cons, Option.some.injEq] at hhead
      subst hhead
      dsimp only
      rw [if_pos ht]
      simp [hu]

/-- When the last command does not coalesce, `set_current_layer_opacity`
pushes a fresh command: the undo stack grows by exactly one entry. -/
lemma set_opacity_push_length {d : DocState} {cur : Layer} (a : ℚ)
    (h : d.current = some cur) (hm : cur.mode ≠ PASS_THROUGH_MODE)
    (hnc : ∀ c, d.stack.undo_stack.head? = some c →
      Document.opacityTargets c cur.id = false) :
    (Document.set_current_layer_opacity a d).stack.undo_stack.length
      = d.stack.undo_stack.length + 1 := by
  rw [set_opacity_cases a h hm]
  cases hu : d.stack.undo_stack with
  | nil =>
      simp [Document.doCmd, CommandStack.doCmd, hu]
  | cons c0 rest =>
      have hc0 : Document.opacityTargets c0 cur.id = false := by
        apply hnc; rw [hu]; rfl
      dsimp only
      rw [if_neg (by simp [hc0])]
      simp [Document.doCmd, CommandStack.doCmd, hu]

/-- `update_frame` touches only the frame: the layer list is preserved. -/
lemma update_frame_layers (x y w h : Option Int) (d : DocState) :
    (Document.update_frame x y w h d).layers = d.layers := by
  unfold Document.update_frame
  dsimp only
  split <;> rfl

/-- `update_frame` touches only the frame: `xres` is preserved. -/
lemma update_frame_xres (x y w h : Option Int) (d : DocState) :
    (Document.update_frame x y w h d).xres = d.xres := by
  unfold Document.update_frame
  dsimp only
  split <;> rfl

/-- `update_frame` touches only the frame: `yres` is preserved. -/
lemma update_frame_yres (x y w h : Option Int) (d : DocState) :
    (Document.update_frame x y w h d).yres = d.yres := by
  unfold Document.update_frame
  dsimp only
  split <;> rfl

/-- Whatever the previous flag value, `set_frame_enabled b` ends with the
flag equal to `b` (the early return only fires when they already agree). -/
lemma set_frame_enabled_frame (b : Bool) (d : DocState) :
    (Document.set_frame_enabled b d).frame_enabled = b := by
  unfold Document.set_frame_enabled
  by_cases hfe : d.frame_enabled = b
  · rw [if_pos hfe]; exact hfe
  · rw [if_neg hfe]

/-- `set_frame_enabled` preserves `xres`. -/
lemma set_frame_enabled_xres (b : Bool) (d : DocState) :
    (Document.set_frame_enabled b d).xres = d.xres := by
  unfold Document.set_frame_enabled
  split <;> rfl

/-- `set_frame_enabled` preserves `yres`. -/
lemma set_frame_enabled_yres (b : Bool) (d : DocState) :
    (Document.set_frame_enabled b d).yres = d.yres := by
  unfold Document.set_frame_enabled
  split <;> rfl

/-- The data bbox only depends on the layer list. -/
lemma get_bbox_congr {e d : DocState} (h : e.layers = d.layers) :
    Document.get_bbox e = Document.get_bbox d := by
  unfold Document.get_bbox
  rw [h]

/-- The observable outcome of the `load_ora` metadata restore: the final
frame flag as a function of the declared rectangle and the data bbox, and
the final resolution fields as a function of the clamped attributes. -/
lemma load_ora_metadata_spec (wa ha xa ya : Option Int) (d : DocState) :
    (Document.load_ora_metadata wa ha xa ya d).frame_enabled
      = !((({ x := 0, y := 0, w := max 0 (wa.getD 0),
              h := max 0 (ha.getD 0) } : Rect) == Document.get_bbox d)
          || (Document.get_bbox d).isEmpty
          || ({ x := 0, y := 0, w := max 0 (wa.getD 0),
                h := max 0 (ha.getD 0) } : Rect).isEmpty) ∧
    (Document.load_ora_metadata wa ha xa ya d).xres
      = (if max 0 (xa.getD 0) ≠ 0 ∧ max 0 (ya.getD 0) ≠ 0
          then some (max 0 (xa.getD 0)) else none) ∧
    (Document.load_ora_metadata wa ha xa ya d).yres
      = (if max 0 (xa.getD 0) ≠ 0 ∧ max 0 (ya.getD 0) ≠ 0
          then some (max 0 (ya.getD 0)) else none) := by
  unfold Document.load_ora_metadata
  dsimp only
  refine ⟨?_, ?_, ?_⟩
  · rw [set_frame_enabled_frame]
    have hl : (Document.update_frame (some 0) (some 0)
        (some (max 0 (wa.getD 0))) (some (max 0 (ha.getD 0)))
        (if max 0 (xa.getD 0) ≠ 0 ∧ max 0 (ya.getD 0) ≠ 0 then
          { d with xres := some (max 0 (xa.getD 0)),
                   yres := some (max 0 (ya.getD 0)) }
        else { d with xres := none, yres := none })).layers = d.layers := by
      rw [update_frame_layers]
      split <;> rfl
    rw [get_bbox_congr hl]
  · rw [set_frame_enabled_xres, update_frame_xres]
    split <;> rfl
  · rw [set_frame_enabled_yres, update_frame_yres]
    split <;> rfl

/-! ## Claim theorems -/

/-- C1: For every history state, `Document.undo()` repeatedly pops and
reverts commands until the popped command has `automatic_undo` unset, then
returns that nearest non-automatic command, or `None` when no non-automatic
command remains; `Document.redo()` behaves symmetrically with re-apply.  A
command whose `automatic_undo` flag is set is never the return value of
`undo()` or `redo()`.  Formally: the returned command is the first
non-automatic entry of the corresponding history list (hence `none` when
there is none, and never an automatic command), every entry up to and
including it is popped off that list, and the popped entries are transferred
to the opposite list. -/
theorem undo_redo_return_nearest_non_automatic (d : DocState) :
    (Document.undo d).1
        = d.stack.undo_stack.find? (fun c => !c.automatic_undo) ∧
    (∀ c, (Document.undo d).1 = some c → c.automatic_undo = false) ∧
    (Document.undo d).2.stack.undo_stack
        = (d.stack.undo_stack.dropWhile (fun c => c.automatic_undo)).tail ∧
    (Document.undo d).2.stack.redo_stack
        = (d.stack.undo_stack.takeWhile (fun c => c.automatic_undo) ++
            (d.stack.undo_stack.dropWhile
              (fun c => c.automatic_undo)).take 1).reverse
          ++ d.stack.redo_stack ∧
    (Document.redo d).1
        = d.stack.redo_stack.find? (fun c => !c.automatic_undo) ∧
    (∀ c, (Document.redo d).1 = some c → c.automatic_undo = false) ∧
    (Document.redo d).2.stack.redo_stack
        = (d.stack.redo_stack.dropWhile (fun c => c.automatic_undo)).tail ∧
    (Document.redo d).2.stack.undo_stack
        = (d.stack.redo_stack.takeWhile (fun c => c.automatic_undo) ++
            (d.stack.redo_stack.dropWhile
              (fun c => c.automatic_undo)).take 1).reverse
          ++ d.stack.undo_stack := by
  refine ⟨?_, ?_, ?_, ?_, ?_, ?_, ?_, ?_⟩
  · simp [Document.undo, undoLoop_eq]
  · intro c h
    simp [Document.undo, undoLoop_eq] at h
    exact find?_not_automatic h
  · simp [Document.undo, undoLoop_eq]
  · simp [Document.undo, undoLoop_eq]
  · simp [Document.redo, redoLoop_eq]
  · intro c h
    simp [Document.redo, redoLoop_eq] at h
    exact find?_not_automatic h
  · simp [Document.redo, redoLoop_eq]
  · simp [Document.redo, redoLoop_eq]

/-- Witness for C1: on a history holding an automatic command above a
non-automatic one, `undo()` returns the non-automatic command, whose flag
the theorem shows to be unset. -/
theorem undo_redo_return_nearest_non_automatic_witness :
    (Document.undo skipDoc).1 = some plainCmd ∧
      plainCmd.automatic_undo = false := by
  refine ⟨by decide, ?_⟩
  exact (undo_redo_return_nearest_non_automatic skipDoc).2.1 plainCmd
    (by decide)

/-- C9: Calling `undo()` when the undo history is empty, or `redo()` when
the redo history is empty, is a no-op: it returns `None` and leaves the
document state (and hence both history stacks) unchanged. -/
theorem undo_redo_on_empty_history_noop (d : DocState) :
    (d.stack.undo_stack = [] → Document.undo d = (none, d)) ∧
    (d.stack.redo_stack = [] → Document.redo d = (none, d)) := by
  obtain ⟨layers, cur, ⟨u, r⟩, fr, fe, xr, yr, t⟩ := d
  constructor
  · intro h
    simp only at h
    subst h
    rfl
  · intro h
    simp only at h
    subst h
    rfl

/-- Witness for C9: a fresh document has empty histories; both calls return
`none` and the same document. -/
theorem undo_redo_on_empty_history_noop_witness :
    Document.undo sampleDoc = (none, sampleDoc) ∧
      Document.redo sampleDoc = (none, sampleDoc) :=
  ⟨(undo_redo_on_empty_history_noop sampleDoc).1 rfl,
   (undo_redo_on_empty_history_noop sampleDoc).2 rfl⟩

/-- C2 (evaluation at the failing input): `get_full_redraw_bbox` does *not*
treat the infinite `(0,0,0,0)` sentinel as absorbing regardless of traversal
position.  With an infinite layer followed by a finite one, the sentinel
written into the accumulator is an empty rectangle for the subsequent union,
so the finite box replaces it and the function returns `(0,0,64,64)` instead
of the sentinel the claim requires.  Only when the infinite layer comes last
does the sentinel survive. -/
theorem full_redraw_bbox_sentinel_not_absorbing :
    infiniteLayer.full_redraw_bbox = (⟨0, 0, 0, 0⟩ : Rect) ∧
    infiniteFirstDoc.layers = [infiniteLayer, finiteLayer] ∧
    Document.get_full_redraw_bbox infiniteFirstDoc = ⟨0, 0, 64, 64⟩ ∧
    Document.get_full_redraw_bbox infiniteFirstDoc ≠ ⟨0, 0, 0, 0⟩ ∧
    Document.get_full_redraw_bbox infiniteLastDoc = ⟨0, 0, 0, 0⟩ := by
  decide

/-- C3: Two consecutive `set_current_layer_opacity` calls while the same
layer object is current produce exactly one undo-stack entry — the second
call updates the most recent `SetLayerOpacity` in place (the top entry
afterwards carries the second value, the stack length does not grow, and
when the previous top did not already coalesce the pair of calls adds
exactly one entry) — while switching the current layer object (identity)
between the calls pushes a new command, producing two entries. -/
theorem set_current_layer_opacity_coalescing (d : DocState)
    (cur cur2 : Layer) (h : d.current = some cur)
    (hm : cur.mode ≠ PASS_THROUGH_MODE) (a b : ℚ) :
    (∃ auto rest,
      (Document.set_current_layer_opacity b
          (Document.set_current_layer_opacity a d)).stack.undo_stack
        = ⟨.setLayerOpacity cur.id b, auto⟩ :: rest) ∧
    ((Document.set_current_layer_opacity b
        (Document.set_current_layer_opacity a d)).stack.undo_stack.length
      = (Document.set_current_layer_opacity a d).stack.undo_stack.length) ∧
    ((∀ c, d.stack.undo_stack.head? = some c →
        Document.opacityTargets c cur.id = false) →
      (Document.set_current_layer_opacity b
          (Document.set_current_layer_opacity a d)).stack.undo_stack.length
        = d.stack.undo_stack.length + 1) ∧
    (cur2.id ≠ cur.id → cur2.mode ≠ PASS_THROUGH_MODE →
      (∀ c, d.stack.undo_stack.head? = some c →
        Document.opacityTargets c cur.id = false) →
      (Document.set_current_layer_opacity b
          { Document.set_current_layer_opacity a d with
            current := some cur2 }).stack.undo_stack.length
        = d.stack.undo_stack.length + 2) := by
  obtain ⟨h1cur, auto, rest, h1top⟩ := set_opacity_top a h hm
  have hhead : (Document.set_current_layer_opacity a d).stack.undo_stack.head?
      = some ⟨.setLayerOpacity cur.id a, auto⟩ := by
    rw [h1top]; rfl
  have htarg : Document.opacityTargets
      (⟨.setLayerOpacity cur.id a, auto⟩ : Command) cur.id = true := by
    simp [Document.opacityTargets]
  have hsame : (Document.set_current_layer_opacity b
      (Document.set_current_layer_opacity a d)).stack.undo_stack.length
      = (Document.set_current_layer_opacity a d).stack.undo_stack.length :=
    set_opacity_update_length b h1cur hm hhead htarg
  refine ⟨?_, hsame, ?_, ?_⟩
  · obtain ⟨_, auto2, rest2, h2top⟩ := set_opacity_top b h1cur hm
    exact ⟨auto2, rest2, h2top⟩
  · intro hnc
    rw [hsame]
    exact set_opacity_push_length a h hm hnc
  · intro hne hm2 hnc
    have hpush1 :
        (Document.set_current_layer_opacity a d).stack.undo_stack.length
          = d.stack.undo_stack.length + 1 :=
      set_opacity_push_length a h hm hnc
    have hcur2 : ({ Document.set_current_layer_opacity a d with
        current := some cur2 } : DocState).current = some cur2 := rfl
    have hnc2 : ∀ c, ({ Document.set_current_layer_opacity a d with
        current := some cur2 } : DocState).stack.undo_stack.head? = some c →
        Document.opacityTargets c cur2.id = false := by
      intro c hc
      have : ({ Document.set_current_layer_opacity a d with
          current := some cur2 } : DocState).stack.undo_stack.head?
          = some ⟨.setLayerOpacity cur.id a, auto⟩ := by
        show (Document.set_current_layer_opacity a d).stack.undo_stack.head?
          = _
        exact hhead
      rw [this] at hc
      obtain rfl : c = ⟨.setLayerOpacity cur.id a, auto⟩ := by
        exact (Option.some.injEq _ _ ▸ hc).symm
      simp [Document.opacityTargets]
      exact fun e => hne e.symm
    have hpush2 := set_opacity_push_length b hcur2 hm2 hnc2
    rw [hpush2]
    show (Document.set_current_layer_opacity a d).stack.undo_stack.length + 1
      = d.stack.undo_stack.length + 2
    rw [hpush1]

/-- Witness for C3: on a fresh document (current layer `sampleLayer`, empty
history), an opacity change followed by another produces exactly one
undo-stack entry. -/
theorem set_current_layer_opacity_coalescing_witness :
    (Document.set_current_layer_opacity (1 / 4)
        (Document.set_current_layer_opacity (1 / 2)
          sampleDoc)).stack.undo_stack.length
      = sampleDoc.stack.undo_stack.length + 1 := by
  have h := set_current_layer_opacity_coalescing sampleDoc sampleLayer
    sampleLayer2 rfl (by decide) (1 / 2) (1 / 4)
  exact h.2.2.1 (by intro c hc; simp [sampleDoc] at hc)

/-- C4 counterexample: starting from a fresh document, a first mode change
leaves a `SetLayerMode` command on the current layer on top of the stack,
yet a second mode change pushes a new command instead of updating it in
place — the two consecutive calls yield two undo-stack entries, not the
single entry the claim requires. -/
theorem set_current_layer_mode_no_coalescing_counterexample :
    (Document.set_current_layer_mode 5 sampleDoc).stack.undo_stack
        = [⟨.setLayerMode 1 5, false⟩] ∧
    (Document.set_current_layer_mode 6
        (Document.set_current_layer_mode 5 sampleDoc)).stack.undo_stack
        = [⟨.setLayerMode 1 6, false⟩, ⟨.setLayerMode 1 5, false⟩] ∧
    (Document.set_current_layer_mode 6
        (Document.set_current_layer_mode 5 sampleDoc)).stack.undo_stack.length
        ≠ 1 := by
  decide

/-- C4 (amended): `set_current_layer_mode` does not follow the coalescing
policy: whenever a layer (not the root stack) is current, every call pushes
a fresh `SetLayerMode` command regardless of the last command on the stack,
so two consecutive mode changes on one layer add exactly two undo-stack
entries. -/
theorem set_current_layer_mode_always_pushes (d : DocState) (cur : Layer)
    (h : d.current = some cur) :
    (∀ m, (Document.set_current_layer_mode m d).stack.undo_stack
        = ⟨.setLayerMode cur.id m, false⟩ :: d.stack.undo_stack) ∧
    (∀ m1 m2, (Document.set_current_layer_mode m2
        (Document.set_current_layer_mode m1 d)).stack.undo_stack.length
        = d.stack.undo_stack.length + 2) := by
  have hstep : ∀ (m : Int) (e : DocState), e.current = some cur →
      (Document.set_current_layer_mode m e).stack.undo_stack
        = ⟨.setLayerMode cur.id m, false⟩ :: e.stack.undo_stack := by
    intro m e he
    unfold Document.set_current_layer_mode
    rw [he]
    rfl
  constructor
  · intro m
    exact hstep m d h
  · intro m1 m2
    have hcur1 : (Document.set_current_layer_mode m1 d).current
        = some cur := by
      unfold Document.set_current_layer_mode
      rw [h]
      exact h
    rw [hstep m2 _ hcur1, hstep m1 d h]
    simp

/-- Witness for C4 (amended): on a fresh document, two consecutive mode
changes add exactly two history entries. -/
theorem set_current_layer_mode_always_pushes_witness :
    (Document.set_current_layer_mode 6
        (Document.set_current_layer_mode 5 sampleDoc)).stack.undo_stack.length
      = sampleDoc.stack.undo_stack.length + 2 :=
  (set_current_layer_mode_always_pushes sampleDoc sampleLayer rfl).2 5 6

/-- C5: When the document's effective bounding box is empty, `flood_fill`
hands the `FloodFill` command exactly the single tile-aligned N-by-N
rectangle containing the seed point, `(N*(x//N), N*(y//N), N, N)` with
Python floor division. -/
theorem flood_fill_empty_doc_single_tile (x y : Int)
    (color : ℚ × ℚ × ℚ) (tolerance : ℚ)
    (sample_merged make_new_layer : Bool) (d : DocState)
    (h : (Document.get_effective_bbox d).isEmpty = true) :
    (Document.flood_fill x y color tolerance sample_merged make_new_layer
        d).stack.undo_stack
      = ⟨.floodFill x y color
            ⟨N * Int.fdiv x N, N * Int.fdiv y N, N, N⟩ tolerance
            sample_merged
            (if (match d.current with
                  | some l => l.fillable
                  | none => false) then make_new_layer else true),
          false⟩ :: d.stack.undo_stack := by
  unfold Document.flood_fill
  dsimp only
  rw [if_pos h]
  rfl

/-- Witness for C5: a fresh document has an empty effective bbox, and a fill
seeded at `(100, -30)` is bounded to the tile rectangle `(64, -64, 64, 64)`
(tile size 64). -/
theorem flood_fill_empty_doc_single_tile_witness :
    (Document.get_effective_bbox sampleDoc).isEmpty = true ∧
    (Document.flood_fill 100 (-30) (0, 0, 0) (1 / 10) false false
        sampleDoc).stack.undo_stack
      = [⟨.floodFill 100 (-30) (0, 0, 0) ⟨64, -64, 64, 64⟩ (1 / 10)
            false false, false⟩] := by
  refine ⟨by decide, ?_⟩
  rw [flood_fill_empty_doc_single_tile 100 (-30) (0, 0, 0) (1 / 10)
    false false sampleDoc (by decide)]
  rfl

/-- C6: After the `load_ora` metadata restore, `frame_enabled` is true if
and only if the rectangle declared by the `w`/`h` attributes at origin
`(0,0)` differs from the reconstructed data bounding box and neither of the
two rectangles is empty (so an empty declared size, an empty data bbox, or
matching boxes all leave framing disabled). -/
theorem load_ora_frame_enabled_iff (wa ha xa ya : Option Int)
    (d : DocState) :
    (Document.load_ora_metadata wa ha xa ya d).frame_enabled = true ↔
      (({ x := 0, y := 0, w := max 0 (wa.getD 0),
          h := max 0 (ha.getD 0) } : Rect) ≠ Document.get_bbox d ∧
       (Document.get_bbox d).isEmpty = false ∧
       ({ x := 0, y := 0, w := max 0 (wa.getD 0),
          h := max 0 (ha.getD 0) } : Rect).isEmpty = false) := by
  rw [(load_ora_metadata_spec wa ha xa ya d).1]
  simp only [Bool.not_eq_true', Bool.or_eq_false_iff, beq_eq_false_iff_ne,
    ne_eq]
  tauto

/-- C7: The `load_ora` metadata restore resets both resolution fields to
`None` whenever one of the `xres`/`yres` attributes is missing or zero, and
both fields are restored to the declared values only when both attributes
are present and non-zero (declared positive values are restored exactly). -/
theorem load_ora_resolution_both_or_none (wa ha xa ya : Option Int)
    (d : DocState) :
    ((xa = none ∨ ya = none ∨ xa = some 0 ∨ ya = some 0) →
      (Document.load_ora_metadata wa ha xa ya d).xres = none ∧
      (Document.load_ora_metadata wa ha xa ya d).yres = none) ∧
    (∀ x y : Int, 0 < x → 0 < y → xa = some x → ya = some y →
      (Document.load_ora_metadata wa ha xa ya d).xres = some x ∧
      (Document.load_ora_metadata wa ha xa ya d).yres = some y) ∧
    (∀ x y : Int,
      (Document.load_ora_metadata wa ha xa ya d).xres = some x →
      (Document.load_ora_metadata wa ha xa ya d).yres = some y →
      xa = some x ∧ ya = some y ∧ x ≠ 0 ∧ y ≠ 0) := by
  obtain ⟨-, hx, hy⟩ := load_ora_metadata_spec wa ha xa ya d
  refine ⟨?_, ?_, ?_⟩
  · intro hcase
    rw [hx, hy]
    have : ¬(max 0 (xa.getD 0) ≠ 0 ∧ max 0 (ya.getD 0) ≠ 0) := by
      rcases hcase with h0 | h0 | h0 | h0 <;> subst h0 <;> simp
    rw [if_neg this, if_neg this]
    exact ⟨rfl, rfl⟩
  · intro x y hxpos hypos hxa hya
    subst hxa; subst hya
    rw [hx, hy]
    have hc : max 0 ((some x).getD 0) ≠ 0 ∧ max 0 ((some y).getD 0) ≠ 0 := by
      simp only [Option.getD_some]
      omega
    rw [if_pos hc, if_pos hc]
    simp only [Option.getD_some]
    constructor <;> congr 1 <;> omega
  · intro x y hxr hyr
    rw [hx] at hxr
    rw [hy] at hyr
    by_cases hc : max 0 (xa.getD 0) ≠ 0 ∧ max 0 (ya.getD 0) ≠ 0
    · rw [if_pos hc] at hxr hyr
      have hxv : max 0 (xa.getD 0) = x := by
        exact Option.some.inj hxr
      have hyv : max 0 (ya.getD 0) = y := by
        exact Option.some.inj hyr
      cases hxa : xa with
      | none => rw [hxa] at hc; simp at hc
      | some v =>
          rw [hxa] at hxv hc
          simp only [Option.getD_some] at hxv hc
          cases hya : ya with
          | none => rw [hya] at hc; simp at hc
          | some w2 =>
              rw [hya] at hyv hc
              simp only [Option.getD_some] at hyv hc
              have hvx : v = x := by omega
              have hwy : w2 = y := by omega
              subst hvx; subst hwy
              refine ⟨rfl, rfl, by omega, by omega⟩
    · rw [if_neg hc] at hxr
      exact absurd hxr (by simp)

/-- Witness for C7: only `xres="300"` present loads as the unset pair;
`xres="300"`, `yres="200"` both present restore exactly. -/
theorem load_ora_resolution_both_or_none_witness :
    ((Document.load_ora_metadata (some 64) (some 64) (some 300) none
        sampleDoc).xres = none ∧
     (Document.load_ora_metadata (some 64) (some 64) (some 300) none
        sampleDoc).yres = none) ∧
    ((Document.load_ora_metadata (some 64) (some 64) (some 300) (some 200)
        sampleDoc).xres = some 300 ∧
     (Document.load_ora_metadata (some 64) (some 64) (some 300) (some 200)
        sampleDoc).yres = some 200) :=
  ⟨(load_ora_resolution_both_or_none (some 64) (some 64) (some 300) none
      sampleDoc).1 (Or.inr (Or.inl rfl)),
   (load_ora_resolution_both_or_none (some 64) (some 64) (some 300)
      (some 200) sampleDoc).2.1 300 200 (by decide) (by decide) rfl rfl⟩

/-- C8: `load(filename)` on a path that is not an existing file fails with
the not-found error kind before any loader is invoked (the result does not
depend on the loader table), and the document state — layers, command
stack, frame, resolution, `unsaved_painting_time` — is returned unchanged. -/
theorem load_nonexistent_fails_before_loading (fs : Document.FS)
    (loaders : String → Option (DocState → DocState)) (filename : String)
    (d : DocState) (h : fs.isFile filename = false) :
    Document.load fs loaders filename d
      = (some Document.LoadErrorKind.notFound, d) := by
  unfold Document.load
  simp [h]

/-- Witness for C8: on a filesystem with no files, loading `missing.ora`
reports not-found and returns the fresh document unchanged. -/
theorem load_nonexistent_fails_before_loading_witness :
    Document.load ⟨fun _ => false, fun _ => true⟩ (fun _ => none)
        "missing.ora" sampleDoc
      = (some Document.LoadErrorKind.notFound, sampleDoc) :=
  load_nonexistent_fails_before_loading ⟨fun _ => false, fun _ => true⟩
    (fun _ => none) "missing.ora" sampleDoc rfl

/-- C10: `get_resolution()` always returns a positive value — the clamped
maximum `max 1 (max xres yres)` when both fields are set and non-zero, and
the default 72 otherwise — and `set_resolution(r)` with a non-`None`
argument stores `max 1 r` into both fields, so a stored resolution is never
zero or negative. -/
theorem resolution_positive_and_clamped (d : DocState) (r : Int) :
    0 < Document.get_resolution d ∧
    (∀ x y : Int, d.xres = some x → d.yres = some y → x ≠ 0 → y ≠ 0 →
      Document.get_resolution d = max 1 (max x y)) ∧
    ((d.xres = none ∨ d.yres = none ∨ d.xres = some 0 ∨ d.yres = some 0) →
      Document.get_resolution d = 72) ∧
    ((Document.set_resolution (some r) d).xres = some (max 1 r) ∧
     (Document.set_resolution (some r) d).yres = some (max 1 r)) ∧
    (∀ v : Int, (Document.set_resolution (some r) d).xres = some v →
      0 < v) := by
  refine ⟨?_, ?_, ?_, ⟨rfl, rfl⟩, ?_⟩
  · unfold Document.get_resolution
    rcases hx : d.xres with - | x <;> rcases hy : d.yres with - | y <;>
      dsimp only
    · omega
    · omega
    · omega
    · split
      · omega
      · omega
  · intro x y hx hy hx0 hy0
    unfold Document.get_resolution
    rw [hx, hy]
    dsimp only
    rw [if_pos ⟨hx0, hy0⟩]
  · intro hcase
    unfold Document.get_resolution
    rcases hx : d.xres with - | x <;> rcases hy : d.yres with - | y <;>
      dsimp only
    · have hxy : x = 0 ∨ y = 0 := by
        rcases hcase with h0 | h0 | h0 | h0
        · rw [h0] at hx; exact absurd hx (by simp)
        · rw [h0] at hy; exact absurd hy (by simp)
        · left; rw [h0] at hx; exact (Option.some.inj hx).symm
        · right; rw [h0] at hy; exact (Option.some.inj hy).symm
      rw [if_neg (by omega)]
  · intro v hv
    have : max 1 r = v := Option.some.inj hv
    omega

/-- Witness for C10: with `xres=300`, `yres=200` the resolution is 300 (the
clamped maximum); storing `-7` clamps to 1. -/
theorem resolution_positive_and_clamped_witness :
    0 < Document.get_resolution resDoc ∧
    Document.get_resolution resDoc = max 1 (max 300 200) ∧
    (Document.set_resolution (some (-7)) resDoc).xres = some 1 := by
  have h := resolution_positive_and_clamped resDoc (-7)
  refine ⟨h.1, h.2.1 300 200 rfl rfl (by decide) (by decide), ?_⟩
  rw [h.2.2.2.1.1]
  decide

end MyPaintDoc
